import Mathlib

/-!
Shallow embedding of `flexx/app/_component2.py`: the LocalComponent /
ProxyComponent synchronization core and the BSDF reference codec.

The Python file defines `LocalComponent` (owner of canonical state, fanning
change events out to attached sessions), `ProxyComponent` (a stand-in bound to
one session that forwards actions and accepts inbound mutations), and
`BsdfComponentExtension` (encoding a component as `{session_id, id}` and
decoding by registry lookup).  We embed the payload values, the event record,
the two command kinds, and each method as a pure function from component state
to the list of commands it sends (plus its return value / local effect).
-/

/-- A payload value carried in event records and command arguments. -/
inductive Val where
  | str (s : String)
  | int (n : Int)
  | bool (b : Bool)
deriving DecidableEq, Repr

/-- The payload of an event, before the primitive's `emit` stamps the event
type on it.  Mirrors the fields of the Python event `Dict` that
`_emit_from_other_side` reads: the mutation discriminator (`hasattr(ev,
'mutation')` is `Option.isSome`), `new_value`, `objects`, `index`, plus any
other fields. -/
structure EvInfo where
  mutation : Option String
  new_value : Option Val
  objects : Option (List Val)
  index : Option Int
  extra : List (String × Val)
deriving DecidableEq, Repr

/-- The full event record: the payload plus the `type` field.  This is the
`ev` object produced by `Component.emit` and shipped inside INVOKE commands. -/
structure Ev where
  type : String
  mutation : Option String
  new_value : Option Val
  objects : Option (List Val)
  index : Option Int
  extra : List (String × Val)
deriving DecidableEq, Repr

/-- Modelled from the spec: the underlying event primitive's `emit`
(`Component.emit` of flexx.event, not part of the analyzed file) builds the
full event record `{type: string, ...payload}` from the payload dict and the
event-type name (spec, "Event record"). -/
def mkEvent (type : String) (info : EvInfo) : Ev :=
  ⟨type, info.mutation, info.new_value, info.objects, info.index, info.extra⟩

/-- An argument of an INVOKE / INSTANTIATE command. -/
inductive Arg where
  | val (v : Val)
  | ev (e : Ev)
  | str (s : String)
  | strs (ss : List String)
deriving DecidableEq, Repr

/-- An outbound command, tagged with the id of the session it is sent on
(`session.send_command(...)` in Python). -/
inductive Command where
  | instantiate (sessionId : String) (jsmodule : String) (clsName : String)
      (compId : String) (initArgs : List Arg)
  | invoke (sessionId : String) (compId : String) (methodName : String)
      (args : List Arg)
deriving DecidableEq, Repr

/-- The id of the session a command is sent on. -/
def Command.sessionId : Command → String
  | .instantiate sid _ _ _ _ => sid
  | .invoke sid _ _ _ => sid

/-- A session handle as the component code sees it: its `id`, plus a flag
modelling whether `send_command` raises on this session (used to embed the
`try/finally` in `_registered_reactions_hook`). -/
structure Session where
  id : String
  sendRaises : Bool
deriving DecidableEq, Repr

/-- Python `self.__event_types_at_proxy.get(sid, [])`: association-list lookup with
default `[]`. -/
def lookupTypes (m : List (String × List String)) (sid : String) : List String :=
  match m.find? (fun p => p.1 == sid) with
  | some p => p.2
  | none => []

/-- Python `self.__event_types_at_proxy[sid] = event_types`: dict assignment on an
association list (replace the entry whose key is `sid` if one is present —
dict keys are unique — append a new entry otherwise). -/
def setAssoc : List (String × List String) → String → List String →
    List (String × List String)
  | [], sid, ets => [(sid, ets)]
  | q :: m, sid, ets =>
      if q.1 == sid then (sid, ets) :: m else q :: setAssoc m sid ets

/-- State of a `LocalComponent` (Python side of `PyComponent`): the component
id (`self._id`), the declared property names (`self.__properties__`), the
attached sessions (`self._sessions`), the per-session event-type subscription
table (`self.__event_types_at_proxy`), and the disposed flag
(`self._disposed`, owned by the base `Component`). -/
structure LocalComponent where
  id : String
  properties : List String
  sessions : List Session
  eventTypesAtProxy : List (String × List String)
  disposed : Bool
deriving DecidableEq, Repr

/-- Result of `LocalComponent.emit`: the event record handed to the local
primitive's emit (always produced, first line of the method), and the
commands sent to sessions. -/
structure EmitResult where
  localEvent : Ev
  commands : List Command
deriving DecidableEq, Repr

/-- Embedding of `LocalComponent.emit(type, info)`:

    ev = super().emit(type, info)
    isprop = type in self.__properties__
    if not self._disposed:
        for session in self._sessions:
            if isprop or type in self.__event_types_at_proxy.get(session.id, []):
                session.send_command('INVOKE', self._id, '_emit_from_other_side', [ev])
-/
def LocalComponent.emit (c : LocalComponent) (type : String) (info : EvInfo) :
    EmitResult :=
  let ev := mkEvent type info
  let isprop := c.properties.contains type
  let cmds :=
    if c.disposed then []
    else
      c.sessions.filterMap (fun s =>
        if isprop || (lookupTypes c.eventTypesAtProxy s.id).contains type then
          some (Command.invoke s.id c.id "_emit_from_other_side" [Arg.ev ev])
        else none)
  ⟨ev, cmds⟩

/-- Embedding of `LocalComponent._set_event_types(session_id, event_types)`:
`self.__event_types_at_proxy[session_id] = event_types`. -/
def LocalComponent.set_event_types (c : LocalComponent) (sid : String)
    (ets : List String) : LocalComponent :=
  ⟨c.id, c.properties, c.sessions, setAssoc c.eventTypesAtProxy sid ets,
    c.disposed⟩

/-- State of a `ProxyComponent` (Python side of `JsComponent`): component id,
declared property names, attached sessions (`self._sessions`), the disposed
flag, and the underlying per-instance property storage that the base
primitive's mutation path writes to. -/
structure ProxyComponent where
  id : String
  properties : List String
  sessions : List Session
  disposed : Bool
  store : List (String × Val)
deriving DecidableEq, Repr

/-- Embedding of `ProxyComponent._proxy_action(name, *args)` (with `assert not kwargs`
trivially satisfied: the stubs built by `make_proxy_action` pass positional
arguments only):

    for session in self._sessions:
        session.send_command('INVOKE', self._id, name, args)

Note: the source has no check of `self._disposed` here. -/
def ProxyComponent.proxy_action (p : ProxyComponent) (name : String)
    (args : List Arg) : List Command :=
  p.sessions.map (fun s => Command.invoke s.id p.id name args)

/-- Embedding of `ProxyComponent._mutate(*args, **kwargs)`:

    raise RuntimeError('Cannot mutate properties from a proxy class.')
-/
def ProxyComponent.mutate (_p : ProxyComponent) (_args : List Arg) :
    Except String Unit :=
  .error "Cannot mutate properties from a proxy class."

/-- Modelled from the spec: the primitive's whole-value mutation path writes
the value straight into per-instance storage (the peer already validated it);
`Component._mutate` itself is external to the analyzed file. -/
def baseMutateWhole (store : List (String × Val)) (prop : String) (v : Val) :
    List (String × Val) :=
  if store.any (fun q => q.1 == prop) then
    store.map (fun q => if q.1 == prop then (prop, v) else q)
  else
    store ++ [(prop, v)]

/-- Modelled from the spec: the primitive's normal (validating) property
assignment invokes the instance's `_mutate` and only on success writes the
new value to storage.  On a proxy, `_mutate` is the overridden
`ProxyComponent._mutate`. -/
def ProxyComponent.setProperty (p : ProxyComponent) (prop : String) (v : Val) :
    Except String ProxyComponent :=
  match p.mutate [Arg.str prop, Arg.val v] with
  | .error e => .error e
  | .ok _ => .ok ⟨p.id, p.properties, p.sessions, p.disposed,
      baseMutateWhole p.store prop v⟩

/-- The effect `ProxyComponent._emit_from_other_side` performs: either a call
into the base class's mutation path (`super()._mutate(...)`, bypassing the
proxy's overridden `_mutate`) with the whole-value arguments or with the
positional-edit arguments, or a local `self.emit(ev.type, ev)`. -/
inductive ProxyEffect where
  | mutateSet (prop : String) (newValue : Option Val)
  | mutatePositional (prop : String) (objects : Option (List Val))
      (mutation : String) (index : Option Int)
  | emitLocal (type : String) (payload : Ev)
deriving DecidableEq, Repr

/-- Embedding of `ProxyComponent._emit_from_other_side(ev)`:

    if ev.type in self.__properties__ and hasattr(ev, 'mutation'):
        if ev.mutation == 'set':
            super()._mutate(ev.type, ev.new_value)
        else:
            super()._mutate(ev.type, ev.objects, ev.mutation, ev.index)
    else:
        self.emit(ev.type, ev)
-/
def ProxyComponent.emit_from_other_side (p : ProxyComponent) (ev : Ev) :
    ProxyEffect :=
  if p.properties.contains ev.type then
    match ev.mutation with
    | some m =>
        if m = "set" then .mutateSet ev.type ev.new_value
        else .mutatePositional ev.type ev.objects m ev.index
    | none => .emitLocal ev.type ev
  else .emitLocal ev.type ev

/-- The `for session in self._sessions: session.send_command('INVOKE', ...)`
loop inside `_registered_reactions_hook`: commands are sent in order until a
session's `send_command` raises; the Bool records whether an exception was
raised. -/
def sendTypePushes (compId : String) (eventTypes : List String) :
    List Session → List Command × Bool
  | [] => ([], false)
  | s :: rest =>
      if s.sendRaises then ([], true)
      else
        let r := sendTypePushes compId eventTypes rest
        (Command.invoke s.id compId "_set_event_types"
            [Arg.str s.id, Arg.strs eventTypes] :: r.1, r.2)

/-- Result of `_registered_reactions_hook`: the value returned to the calling
primitive, and the commands actually sent. -/
structure HookResult where
  returned : List String
  commands : List Command
deriving DecidableEq, Repr

/-- Embedding of `ProxyComponent._registered_reactions_hook()`:

    event_types = super()._registered_reactions_hook()
    try:
        if not self._disposed:
            for session in self._sessions:
                session.send_command('INVOKE', self._id, '_set_event_types',
                                     [session.id, event_types])
    finally:
        return event_types

`superTypes` is the set computed by the underlying primitive's hook (external
to the analyzed file).  The `finally: return` makes the returned value
`event_types` even when a `send_command` raises, so the embedding is a total
function whose `returned` field ignores the raised flag. -/
def ProxyComponent.registered_reactions_hook (p : ProxyComponent)
    (superTypes : List String) : HookResult :=
  let r :=
    if p.disposed then ([], false)
    else sendTypePushes p.id superTypes p.sessions
  ⟨superTypes, r.1⟩

/-- Python `self._sessions` after the `flx_session` pop in
`ProxyComponent._comp_init_property_values`: starts `[]`, the optional
`flx_session` keyword appends one session. -/
def proxySessionsOf : Option Session → List Session
  | none => []
  | some s => [s]

/-- Embedding of `ProxyComponent._comp_init_property_values` (Python branch): `_sessions`
starts empty, an optional `flx_session` keyword appends one session, the
component registers with each session, then `assert len(self._sessions) == 1`
and an INSTANTIATE command is sent per session.  Returns the sessions bound
and the commands sent, or the failed assertion. -/
def proxyCompInitPropertyValues (compId : String) (jsmodule : String)
    (clsName : String) (flx_session : Option Session) (init_args : List Arg) :
    Except String (List Session × List Command) :=
  let sessions : List Session := proxySessionsOf flx_session
  if sessions.length = 1 then
    .ok (sessions, sessions.map (fun s =>
      Command.instantiate s.id jsmodule clsName compId init_args))
  else
    .error "AssertionError: len(self._sessions) == 1"

/-- The dict produced by `BsdfComponentExtension.encode` and consumed by
`decode`.  Fields are optional because `decode` receives an arbitrary dict:
a missing key makes the corresponding `d['...']` access raise (which the
`try/except` turns into the sentinel). -/
structure EncodedRef where
  session_id : Option String
  id : Option String
deriving DecidableEq, Repr

/-- Embedding of `BsdfComponentExtension.encode(c)`:

    assert len(c._sessions) == 1
    return dict(session_id=c._sessions[0].id, id=c._id)

Stated over the `_sessions` list and `_id` shared by both component kinds. -/
def bsdfEncode (sessions : List Session) (compId : String) :
    Except String EncodedRef :=
  match sessions with
  | [s] => .ok ⟨some s.id, some compId⟩
  | _ => .error "AssertionError: len(c._sessions) == 1"

/-- The encoder `BsdfComponentExtension.encode` applied to a `LocalComponent`. -/
def LocalComponent.encode (c : LocalComponent) : Except String EncodedRef :=
  bsdfEncode c.sessions c.id

/-- Modelled from the spec: the process-wide session registry that
`manager.get_session_by_id` consults, each session holding its own id-keyed
component registry consulted by `get_component_instance_by_id` (the session
manager is external to the analyzed file).  A failed lookup is `none` (in
Python it surfaces as an exception caught by `decode`). -/
structure Registry where
  sessions : List (String × List (String × LocalComponent))
deriving DecidableEq, Repr

/-- Python `manager.get_session_by_id(sid)`: the component registry of that session. -/
def Registry.getSessionById (reg : Registry) (sid : String) :
    Option (List (String × LocalComponent)) :=
  (reg.sessions.find? (fun p => p.1 == sid)).map (fun p => p.2)

/-- Python `session.get_component_instance_by_id(cid)`. -/
def getComponentById (comps : List (String × LocalComponent)) (cid : String) :
    Option LocalComponent :=
  (comps.find? (fun p => p.1 == cid)).map (fun p => p.2)

/-- What `decode` returns: a live component, or the sentinel placeholder
string from the `except` branch. -/
inductive Decoded where
  | comp (c : LocalComponent)
  | sentinel (s : String)
deriving DecidableEq, Repr

/-- The body of `decode`'s `try` block as a lookup that may fail:
`manager.get_session_by_id(d['session_id'])` followed by
`session.get_component_instance_by_id(d['id'])`, `none` when any step
raises/fails. -/
def rawDecode (reg : Registry) (d : EncodedRef) : Option LocalComponent := do
  let sid ← d.session_id
  let comps ← reg.getSessionById sid
  let cid ← d.id
  getComponentById comps cid

/-- Embedding of `BsdfComponentExtension.decode(d)`:

    try:
        session = manager.get_session_by_id(d['session_id'])
        return session.get_component_instance_by_id(d['id'])
    except Exception:
        return d.get('id', 'unknown_component')

Every failure path lands in the `except` branch, whose value is `d['id']`
when present and `'unknown_component'` otherwise. -/
def bsdfDecode (reg : Registry) (d : EncodedRef) : Decoded :=
  match rawDecode reg d with
  | some c => .comp c
  | none => .sentinel (d.id.getD "unknown_component")

/-! ## Helper lemmas -/

/-- Empty subscription table: every lookup yields the default `[]`. -/
theorem lookupTypes_nil (sid2 : String) : lookupTypes [] sid2 = [] := rfl

/-- Unfolding lemma for `lookupTypes` on a cons cell. -/
theorem lookupTypes_cons (q : String × List String)
    (m : List (String × List String)) (sid2 : String) :
    lookupTypes (q :: m) sid2 = if q.1 = sid2 then q.2 else lookupTypes m sid2 := by
  simp only [lookupTypes, List.find?_cons]
  by_cases h : q.1 = sid2
  · simp [h]
  · have hb : (q.1 == sid2) = false := beq_eq_false_iff_ne.mpr h
    simp [hb, h]

/-- Lookup after assoc-list assignment: the assigned key now maps to the new
value, every other key is unchanged. -/
theorem lookupTypes_setAssoc (m : List (String × List String)) (sid : String)
    (ets : List String) (sid2 : String) :
    lookupTypes (setAssoc m sid ets) sid2
      = if sid2 = sid then ets else lookupTypes m sid2 := by
  induction m with
  | nil =>
      show lookupTypes [(sid, ets)] sid2 = _
      rw [lookupTypes_cons]
      by_cases h : sid2 = sid
      · simp [h]
      · have ha : ¬ sid = sid2 := fun hc => h hc.symm
        simp [h, ha]
  | cons q m ih =>
      by_cases h1 : q.1 = sid
      · have hs : setAssoc (q :: m) sid ets = (sid, ets) :: m := by
          simp [setAssoc, h1]
        rw [hs, lookupTypes_cons, lookupTypes_cons]
        by_cases h2 : sid2 = sid
        · simp [h2, h1]
        · have ha : ¬ sid = sid2 := fun hc => h2 hc.symm
          have hb : ¬ q.1 = sid2 := fun hc => h2 ((h1.symm.trans hc).symm)
          simp [h2, ha, hb]
      · have hs : setAssoc (q :: m) sid ets = q :: setAssoc m sid ets := by
          simp [setAssoc, h1]
        rw [hs, lookupTypes_cons, lookupTypes_cons, ih]
        by_cases h2 : q.1 = sid2
        · have hns : ¬ sid2 = sid := fun hc => h1 (h2.trans hc)
          simp [h2, hns]
        · simp [h2]

/-- A `filterMap` whose body is if-then-some-else-none is a filter followed
by a map. -/
theorem filterMap_ite_some {α β : Type} (l : List α) (p : α → Bool)
    (f : α → β) :
    l.filterMap (fun x => if p x then some (f x) else none)
      = (l.filter p).map f := by
  induction l with
  | nil => rfl
  | cons a l ih => by_cases h : p a <;> simp [h, ih]

/-! ## Claim theorems -/

/-- A `filterMap` of an always-`some` function is a `map`. -/
theorem filterMap_some_eq_map {α β : Type} (l : List α) (f : α → β) :
    l.filterMap (fun x => some (f x)) = l.map f := by
  induction l with
  | nil => rfl
  | cons a l ih => simp [ih]

/-- Filtering a mapped list by a predicate that agrees with a predicate on
the originals preserves the length of the filtered list. -/
theorem length_filter_map_eq {α β : Type} (l : List α) (f : α → β)
    (p : β → Bool) (q : α → Bool) (h : ∀ a, p (f a) = q a) :
    ((l.map f).filter p).length = (l.filter q).length := by
  induction l with
  | nil => rfl
  | cons a l ih =>
      by_cases ha : q a
      · simp [List.filter, h, ha, ih]
      · have hb : q a = false := by simpa using ha
        simp [List.filter, h, hb, ih]

/-- C1: for every non-disposed LocalComponent, emitting an event whose type
names one of the component's properties sends exactly one INVOKE command per
attached session — targeting the peer's `_emit_from_other_side` with the full
event record as single argument — regardless of that session's subscription
entry: the command list is exactly the map of that INVOKE over the session
list, and per session id the number of commands equals the number of attached
sessions with that id (so exactly one for each of the distinct sessions). -/
theorem emit_property_forwards_to_every_session
    (c : LocalComponent) (t : String) (i : EvInfo)
    (hd : c.disposed = false) (hp : c.properties.contains t = true) :
    (c.emit t i).commands
      = c.sessions.map (fun s =>
          Command.invoke s.id c.id "_emit_from_other_side" [Arg.ev (mkEvent t i)])
    ∧ ∀ sid : String,
        ((c.emit t i).commands.filter (fun cmd => cmd.sessionId == sid)).length
          = (c.sessions.filter (fun s => s.id == sid)).length := by
  have hp2 : t ∈ c.properties := by simpa using hp
  have hm : (c.emit t i).commands
      = c.sessions.map (fun s =>
          Command.invoke s.id c.id "_emit_from_other_side" [Arg.ev (mkEvent t i)]) := by
    simp [LocalComponent.emit, hd, hp2, filterMap_some_eq_map]
  refine ⟨hm, fun sid => ?_⟩
  rw [hm]
  exact length_filter_map_eq c.sessions _ _ _ (fun a => rfl)

/-- Witness for C1: a component with property `count`, attached to sessions
`sA` (no subscription entry) and `sB` (subscribed to `clicked` only);
emitting `count` sends one INVOKE to each of the two sessions. -/
theorem emit_property_forwards_to_every_session_witness :
    ((⟨"c1", ["count"], [⟨"sA", false⟩, ⟨"sB", false⟩], [("sB", ["clicked"])],
        false⟩ : LocalComponent).emit "count"
          ⟨some "set", some (Val.int 5), none, none, []⟩).commands
      = [Command.invoke "sA" "c1" "_emit_from_other_side"
            [Arg.ev ⟨"count", some "set", some (Val.int 5), none, none, []⟩],
         Command.invoke "sB" "c1" "_emit_from_other_side"
            [Arg.ev ⟨"count", some "set", some (Val.int 5), none, none, []⟩]] := by
  have h := emit_property_forwards_to_every_session
      (⟨"c1", ["count"], [⟨"sA", false⟩, ⟨"sB", false⟩], [("sB", ["clicked"])],
        false⟩ : LocalComponent) "count"
      ⟨some "set", some (Val.int 5), none, none, []⟩ rfl (by decide)
  exact h.1.trans rfl

/-- C2: for every non-disposed LocalComponent, emitting an event whose type
`t` is not a property sends an INVOKE only to the attached sessions whose
subscription entry contains `t` (sessions without an entry get the default
`[]`, hence nothing); and the subscription entry consulted is exactly the one
last written by `_set_event_types` for that session id. -/
theorem emit_nonproperty_filters_by_subscription
    (c : LocalComponent) (t : String) (i : EvInfo)
    (hd : c.disposed = false) (hp : c.properties.contains t = false) :
    (c.emit t i).commands
      = (c.sessions.filter (fun s =>
            (lookupTypes c.eventTypesAtProxy s.id).contains t)).map (fun s =>
          Command.invoke s.id c.id "_emit_from_other_side" [Arg.ev (mkEvent t i)])
    ∧ ∀ (sid : String) (ets : List String) (sid2 : String),
        lookupTypes ((c.set_event_types sid ets).eventTypesAtProxy) sid2
          = if sid2 = sid then ets else lookupTypes c.eventTypesAtProxy sid2 := by
  constructor
  · have he : (c.emit t i).commands
        = c.sessions.filterMap (fun s =>
            if (lookupTypes c.eventTypesAtProxy s.id).contains t then
              some (Command.invoke s.id c.id "_emit_from_other_side"
                [Arg.ev (mkEvent t i)])
            else none) := by
      have hp2 : t ∉ c.properties := by simpa using hp
      simp [LocalComponent.emit, hd, hp2]
    rw [he, filterMap_ite_some]
  · exact fun sid ets sid2 => lookupTypes_setAssoc c.eventTypesAtProxy sid ets sid2

/-- Witness for C2: with sessions `sA` (no entry) and `sB` (entry
`["clicked"]`), emitting the non-property type `clicked` sends one INVOKE to
`sB` only, and writing then reading a subscription entry round-trips. -/
theorem emit_nonproperty_filters_by_subscription_witness :
    ((⟨"c1", ["count"], [⟨"sA", false⟩, ⟨"sB", false⟩], [("sB", ["clicked"])],
        false⟩ : LocalComponent).emit "clicked"
          ⟨none, none, none, none, []⟩).commands
      = [Command.invoke "sB" "c1" "_emit_from_other_side"
            [Arg.ev ⟨"clicked", none, none, none, none, []⟩]]
    ∧ lookupTypes (((⟨"c1", ["count"],
          [⟨"sA", false⟩, ⟨"sB", false⟩], [("sB", ["clicked"])],
          false⟩ : LocalComponent).set_event_types "sA"
            ["moved"]).eventTypesAtProxy) "sA"
        = ["moved"] := by
  have h := emit_nonproperty_filters_by_subscription
      (⟨"c1", ["count"], [⟨"sA", false⟩, ⟨"sB", false⟩], [("sB", ["clicked"])],
        false⟩ : LocalComponent) "clicked" ⟨none, none, none, none, []⟩
      rfl (by decide)
  refine ⟨h.1.trans (by decide), (h.2 "sA" ["moved"] "sA").trans (by decide)⟩

/-- C3: `_emit_from_other_side` dispatch.  When the incoming event's type
names a property of the proxy and the event carries a mutation
discriminator, the base-class mutation path is invoked (bypassing the
proxy's disabled `_mutate`): the whole-value form `(ev.type, ev.new_value)`
when the discriminator is `"set"`, and the positional form
`(ev.type, ev.objects, ev.mutation, ev.index)` otherwise.  In every other
case the event is emitted locally under `ev.type` with `ev` as payload. -/
theorem emit_from_other_side_dispatch (p : ProxyComponent) (ev : Ev) :
    (∀ m : String, p.properties.contains ev.type = true → ev.mutation = some m →
        p.emit_from_other_side ev
          = if m = "set" then ProxyEffect.mutateSet ev.type ev.new_value
            else ProxyEffect.mutatePositional ev.type ev.objects m ev.index)
    ∧ (p.properties.contains ev.type = false ∨ ev.mutation = none →
        p.emit_from_other_side ev = ProxyEffect.emitLocal ev.type ev) := by
  constructor
  · intro m hp hm
    have hp2 : ev.type ∈ p.properties := by simpa using hp
    simp [ProxyComponent.emit_from_other_side, hp2, hm]
  · intro h
    rcases h with h | h
    · have hp2 : ev.type ∉ p.properties := by simpa using h
      simp [ProxyComponent.emit_from_other_side, hp2]
    · cases hb : p.properties.contains ev.type <;>
        simp [ProxyComponent.emit_from_other_side, hb, h]

/-- Witness for C3 (the spec's structural-edit scenario): a proxy with
property `items` receiving `{type: "items", mutation: "insert",
objects: [7], index: 2}` performs the positional base-class mutation. -/
theorem emit_from_other_side_dispatch_witness :
    ProxyComponent.emit_from_other_side
        (⟨"c2", ["items"], [⟨"sA", false⟩], false, []⟩ : ProxyComponent)
        ⟨"items", some "insert", none, some [Val.int 7], some 2, []⟩
      = ProxyEffect.mutatePositional "items" (some [Val.int 7]) "insert" (some 2) := by
  have h := (emit_from_other_side_dispatch
      (⟨"c2", ["items"], [⟨"sA", false⟩], false, []⟩ : ProxyComponent)
      ⟨"items", some "insert", none, some [Val.int 7], some 2, []⟩).1
      "insert" (by decide) rfl
  exact h.trans (if_neg (by decide))

/-- Counterexample to C4 as stated: a ProxyComponent whose disposed flag is
set still sends an INVOKE command when one of its forwarded actions runs —
`_proxy_action` iterates `self._sessions` without consulting
`self._disposed`. -/
theorem proxy_action_ignores_disposed_counterexample :
    (⟨"c1", [], [⟨"sA", false⟩], true, []⟩ : ProxyComponent).disposed = true
    ∧ ProxyComponent.proxy_action
        (⟨"c1", [], [⟨"sA", false⟩], true, []⟩ : ProxyComponent) "submit"
        [Arg.str "form1"]
      = [Command.invoke "sA" "c1" "submit" [Arg.str "form1"]]
    ∧ ProxyComponent.proxy_action
        (⟨"c1", [], [⟨"sA", false⟩], true, []⟩ : ProxyComponent) "submit"
        [Arg.str "form1"] ≠ [] := by
  refine ⟨rfl, rfl, ?_⟩
  decide

/-- C4 (amended): once a component's disposed flag is set, `emit` sends no
outbound command (and, being total, raises nothing), and the disposed
`_registered_reactions_hook` also pushes nothing; `_proxy_action`, however,
still sends one INVOKE per attached session regardless of the disposed flag
(also without raising). -/
theorem disposed_emit_silent_but_proxy_action_sends
    (c : LocalComponent) (t : String) (i : EvInfo) (p : ProxyComponent)
    (name : String) (args : List Arg) (superTypes : List String)
    (hc : c.disposed = true) (hp : p.disposed = true) :
    (c.emit t i).commands = []
    ∧ (p.registered_reactions_hook superTypes).commands = []
    ∧ p.proxy_action name args
        = p.sessions.map (fun s => Command.invoke s.id p.id name args) := by
  refine ⟨by simp [LocalComponent.emit, hc], ?_, rfl⟩
  simp [ProxyComponent.registered_reactions_hook, hp]

/-- Witness for the amended C4: a disposed local component emits nothing
outbound while a disposed proxy's action still produces its INVOKE. -/
theorem disposed_emit_silent_but_proxy_action_sends_witness :
    ((⟨"c1", ["count"], [⟨"sA", false⟩], [], true⟩ : LocalComponent).emit
        "count" ⟨none, none, none, none, []⟩).commands = []
    ∧ ProxyComponent.proxy_action
        (⟨"c2", [], [⟨"sA", false⟩], true, []⟩ : ProxyComponent) "submit" []
      = [Command.invoke "sA" "c2" "submit" []] := by
  have h := disposed_emit_silent_but_proxy_action_sends
      (⟨"c1", ["count"], [⟨"sA", false⟩], [], true⟩ : LocalComponent) "count"
      ⟨none, none, none, none, []⟩
      (⟨"c2", [], [⟨"sA", false⟩], true, []⟩ : ProxyComponent) "submit" [] []
      rfl rfl
  exact ⟨h.1, h.2.2.trans rfl⟩

/-- C5: every direct mutation attempt on a ProxyComponent raises
`RuntimeError('Cannot mutate properties from a proxy class.')` — both the
overridden `_mutate` itself and the normal property-assignment path that
goes through it fail; neither ever succeeds, so nothing is forwarded or
queued and the underlying storage is untouched. -/
theorem proxy_mutate_always_raises (p : ProxyComponent) (args : List Arg)
    (prop : String) (v : Val) :
    p.mutate args = .error "Cannot mutate properties from a proxy class."
    ∧ p.setProperty prop v
        = .error "Cannot mutate properties from a proxy class."
    ∧ ∀ p2 : ProxyComponent, p.setProperty prop v ≠ .ok p2 := by
  refine ⟨rfl, rfl, fun p2 h => ?_⟩
  simp [ProxyComponent.setProperty, ProxyComponent.mutate] at h

/-- C6: for a component attached to exactly one session, `encode` produces
`{session_id, id}` with that session's id and the component's id, and
decoding that dict against a registry in which the session's component
registry maps the component's id to the component yields that very component
(hence a reference resolving back to the same id). -/
theorem encode_decode_roundtrip (c : LocalComponent) (s : Session)
    (reg : Registry) (comps : List (String × LocalComponent))
    (hs : c.sessions = [s])
    (hreg : reg.getSessionById s.id = some comps)
    (hcomp : getComponentById comps c.id = some c) :
    c.encode = .ok ⟨some s.id, some c.id⟩
    ∧ bsdfDecode reg ⟨some s.id, some c.id⟩ = .comp c
    ∧ ∀ c2, bsdfDecode reg ⟨some s.id, some c.id⟩ = .comp c2 → c2.id = c.id := by
  have he : c.encode = .ok ⟨some s.id, some c.id⟩ := by
    simp [LocalComponent.encode, bsdfEncode, hs]
  have hd : bsdfDecode reg ⟨some s.id, some c.id⟩ = .comp c := by
    simp [bsdfDecode, rawDecode, hreg, hcomp]
  refine ⟨he, hd, fun c2 h2 => ?_⟩
  rw [hd] at h2
  cases h2
  rfl

/-- Witness for C6: a concrete component `c1` attached to session `sA`,
with a registry mapping `sA` to a component registry containing `c1`. -/
theorem encode_decode_roundtrip_witness :
    LocalComponent.encode
        (⟨"c1", ["count"], [⟨"sA", false⟩], [], false⟩ : LocalComponent)
      = .ok ⟨some "sA", some "c1"⟩
    ∧ bsdfDecode
        (⟨[("sA", [("c1",
            (⟨"c1", ["count"], [⟨"sA", false⟩], [], false⟩ : LocalComponent))])]⟩ :
          Registry)
        ⟨some "sA", some "c1"⟩
      = .comp (⟨"c1", ["count"], [⟨"sA", false⟩], [], false⟩ : LocalComponent) := by
  have h := encode_decode_roundtrip
      (⟨"c1", ["count"], [⟨"sA", false⟩], [], false⟩ : LocalComponent)
      (⟨"sA", false⟩ : Session)
      (⟨[("sA", [("c1",
          (⟨"c1", ["count"], [⟨"sA", false⟩], [], false⟩ : LocalComponent))])]⟩ :
        Registry)
      [("c1", (⟨"c1", ["count"], [⟨"sA", false⟩], [], false⟩ : LocalComponent))]
      rfl (by decide) (by decide)
  exact ⟨h.1, h.2.1⟩

/-- C7: whenever the lookup chain inside `decode`'s `try` block fails — a
missing `session_id` or `id` key, an unknown session, or an unknown
component id — `decode` returns the sentinel (`d['id']` when present,
`'unknown_component'` otherwise); being a total function it raises nothing,
so the rest of the containing payload can still be decoded. -/
theorem decode_failure_yields_sentinel (reg : Registry) (d : EncodedRef)
    (h : rawDecode reg d = none) :
    bsdfDecode reg d = .sentinel (d.id.getD "unknown_component")
    ∧ ∀ c : LocalComponent, bsdfDecode reg d ≠ .comp c := by
  have hs : bsdfDecode reg d = .sentinel (d.id.getD "unknown_component") := by
    simp [bsdfDecode, h]
  exact ⟨hs, fun c hc => by rw [hs] at hc; cases hc⟩

/-- Witness for C7: decoding `{session_id: "gone", id: "c9"}` against an
empty registry yields the raw id `"c9"` as sentinel. -/
theorem decode_failure_yields_sentinel_witness :
    bsdfDecode (⟨[]⟩ : Registry) ⟨some "gone", some "c9"⟩
      = .sentinel "c9" := by
  have h := decode_failure_yields_sentinel (⟨[]⟩ : Registry)
      ⟨some "gone", some "c9"⟩ rfl
  exact h.1.trans rfl

/-- C8: the two cardinality invariants are assertion failures. On the Python
side, `ProxyComponent._comp_init_property_values` ends up with `_sessions`
holding the optional `flx_session` argument and asserts it has exactly one
element, so initialization with a session count other than one fails the
assertion (and with exactly one it succeeds, sending the INSTANTIATE);
`BsdfComponentExtension.encode` likewise asserts the encoded component has
exactly one attached session. -/
theorem cardinality_invariants_assert (fs : Option Session)
    (compId jsmodule clsName : String) (init_args : List Arg)
    (sessions : List Session) (cid2 : String)
    (h1 : (proxySessionsOf fs).length ≠ 1) (h2 : sessions.length ≠ 1) :
    proxyCompInitPropertyValues compId jsmodule clsName fs init_args
        = .error "AssertionError: len(self._sessions) == 1"
    ∧ bsdfEncode sessions cid2
        = .error "AssertionError: len(c._sessions) == 1"
    ∧ ∀ s : Session, ∃ r,
        proxyCompInitPropertyValues compId jsmodule clsName (some s) init_args
          = .ok r := by
  refine ⟨?_, ?_, fun s => ⟨_, rfl⟩⟩
  · cases fs with
    | none => rfl
    | some s => exact absurd rfl h1
  · cases sessions with
    | nil => rfl
    | cons a l =>
        cases l with
        | nil => exact absurd rfl h2
        | cons b l2 => rfl

/-- Witness for C8: initializing with no session and encoding a component
with no attached session both fail their assertion; with one session the
initialization succeeds. -/
theorem cardinality_invariants_assert_witness :
    proxyCompInitPropertyValues "c1" "mod" "Widget" none []
        = .error "AssertionError: len(self._sessions) == 1"
    ∧ bsdfEncode [] "c1" = .error "AssertionError: len(c._sessions) == 1"
    ∧ ∃ r, proxyCompInitPropertyValues "c1" "mod" "Widget"
        (some ⟨"sA", false⟩) [] = .ok r := by
  have h := cardinality_invariants_assert none "c1" "mod" "Widget" []
      ([] : List Session) "c1" (by decide) (by decide)
  exact ⟨h.1, h.2.1, h.2.2 ⟨"sA", false⟩⟩

/-- C9: `_registered_reactions_hook` always hands the event-type set computed
by the underlying primitive's hook back to the caller: when the component is
disposed (in which case no `_set_event_types` push is sent at all) and also
when `send_command` raises on some session (`finally: return event_types`
swallows the exception, so the caller still receives the set). -/
theorem hook_always_returns_super_types (p : ProxyComponent)
    (superTypes : List String) :
    (p.registered_reactions_hook superTypes).returned = superTypes
    ∧ (p.disposed = true →
        (p.registered_reactions_hook superTypes).commands = []) := by
  refine ⟨rfl, fun h => ?_⟩
  simp [ProxyComponent.registered_reactions_hook, h]

/-- Witness for C9: a disposed proxy whose only session's `send_command`
raises still gets the computed set back, and pushes nothing. -/
theorem hook_always_returns_super_types_witness :
    (ProxyComponent.registered_reactions_hook
        (⟨"c1", [], [⟨"sA", true⟩], true, []⟩ : ProxyComponent)
        ["pointer_move"]).returned = ["pointer_move"]
    ∧ (ProxyComponent.registered_reactions_hook
        (⟨"c1", [], [⟨"sA", true⟩], true, []⟩ : ProxyComponent)
        ["pointer_move"]).commands = [] := by
  have h := hook_always_returns_super_types
      (⟨"c1", [], [⟨"sA", true⟩], true, []⟩ : ProxyComponent) ["pointer_move"]
  exact ⟨h.1, h.2 rfl⟩

/-- C10: `LocalComponent.emit` performs the local emit through the underlying
primitive unconditionally — the event record handed to local reactions is
built before the disposed check and does not depend on the disposed flag —
while setting the disposed flag suppresses exactly the outbound INVOKE
forwarding. -/
theorem emit_local_even_when_disposed (c : LocalComponent) (t : String)
    (i : EvInfo) :
    (c.emit t i).localEvent = mkEvent t i
    ∧ (c.emit t i).localEvent
        = ((⟨c.id, c.properties, c.sessions, c.eventTypesAtProxy,
            false⟩ : LocalComponent).emit t i).localEvent
    ∧ (c.disposed = true → (c.emit t i).commands = []) := by
  refine ⟨rfl, rfl, fun h => ?_⟩
  simp [LocalComponent.emit, h]

/-- Witness for C10: a disposed component still produces the local event
record, while its outbound command list is empty. -/
theorem emit_local_even_when_disposed_witness :
    ((⟨"c1", ["count"], [⟨"sA", false⟩], [], true⟩ : LocalComponent).emit
        "clicked" ⟨none, none, none, none, []⟩).localEvent
      = ⟨"clicked", none, none, none, none, []⟩
    ∧ ((⟨"c1", ["count"], [⟨"sA", false⟩], [], true⟩ : LocalComponent).emit
        "clicked" ⟨none, none, none, none, []⟩).commands = [] := by
  have h := emit_local_even_when_disposed
      (⟨"c1", ["count"], [⟨"sA", false⟩], [], true⟩ : LocalComponent)
      "clicked" ⟨none, none, none, none, []⟩
  exact ⟨h.1.trans rfl, h.2.2 rfl⟩
